import Mathlib

/-
  Shallow embedding of src/backend/commands/matview.c (REFRESH MATERIALIZED VIEW).

  The stateful C code is modelled by explicit state passing: a `World` holds the
  observable state (the materialized view with its catalog fields and storage, the
  transient heap, the active-snapshot stack, counters), an `Env` holds the outcomes
  of the external collaborators (name resolution, CheckTableNotInUse, XLogIsNeeded,
  QueryRewrite, CHECK_FOR_INTERRUPTS, planner, executor), and every operation
  additionally emits a trace of externally visible events (WAL records, smgr calls,
  heap inserts, snapshot pushes and pops, the heap swap) so that ordering claims can
  be stated about it.  Relation handles (the C `Relation` pointers) are modelled as
  oid references resolved against the world.  Errors raised with ereport or elog are
  modelled as an `Option RefreshError` result; raising one aborts the rest of the
  operation, as the C longjmp does.
-/

set_option linter.unusedVariables false

namespace Matview

/-- Rows are abstract tuple values. -/
abbrev Row := Nat

/-- Relation kind (pg_class relkind); only the distinction matview / not-matview matters here. -/
inductive RelKind
  | matview
  | table
  | index
  | ordinaryView
  deriving DecidableEq, Repr

/-- Command type of a rewrite rule event (CmdType). -/
inductive CmdType
  | select
  | insert
  | update
  | delete
  deriving DecidableEq, Repr

/-- A range table entry; only the fields the refresh path touches. -/
structure RangeTblEntry where
  aliasname : String
  isResultRel : Bool
  deriving DecidableEq, Repr

/-- A rewritten query tree; the refresh path only manipulates its range table. -/
structure Query where
  rtable : List RangeTblEntry
  deriving DecidableEq, Repr

/-- A rewrite rule attached to the view. -/
structure RewriteRule where
  event : CmdType
  isInstead : Bool
  actions : List Query
  deriving DecidableEq, Repr

/-- A heap page: initialization and checksum status plus the row items stored on it. -/
structure Page where
  initialized : Bool
  checksummed : Bool
  rows : List Row
  deriving DecidableEq, Repr

/-- A relation: the catalog fields used by the refresh path together with its storage,
a swappable filenode (the storage identity) and the list of pages (the contents). -/
structure Rel where
  oid : Nat
  relkind : RelKind
  relhasrules : Bool
  rules : List RewriteRule
  reltablespace : Nat
  needsWAL : Bool
  filenode : Nat
  pages : List Page
  deriving DecidableEq, Repr

/-- rd_ispopulated: a heap is scannable exactly when it has an initialized first page
(see the NOTE above SetMatViewToPopulated: the heap starts out not looking scannable). -/
def Rel.ispopulated (r : Rel) : Bool :=
  !r.pages.isEmpty

/-- The logical contents of a relation: all rows of all pages, in page order. -/
def Rel.contents (r : Rel) : List Row :=
  (r.pages.map Page.rows).flatten

/-- Externally visible events emitted during a refresh. -/
inductive Event
  | logNewPage (filenode blkno : Nat)
  | smgrextend (filenode blkno : Nat) (page : Page)
  | smgrimmedsync (filenode : Nat)
  | relcacheInvalidate (oid : Nat)
  | heapInsert (filenode : Nat) (row : Row) (cid : Nat) (options : Nat)
  | heapSync (filenode : Nat)
  | getBulkInsertState
  | freeBulkInsertState
  | makeNewHeap (oid filenode tablespace : Nat)
  | finishHeapSwap (targetOid : Nat)
  | planQuery (q : Query)
  | executorRunEv
  | pushSnapshot (snap : Nat)
  | updateSnapshotCommandId
  | popSnapshot
  | checkForInterrupts
  | checkTableNotInUse (oid : Nat)
  deriving DecidableEq, Repr

/-- Errors the refresh path can raise.  ereport calls with a user-facing errcode,
elog calls (internal errors) and the errors raised inside external collaborators
are distinguished by the classification functions below. -/
inductive RefreshError
  | resolutionFailed
  | notMatview
  | missingRewriteInfo
  | tooManyRules
  | notSelectInsteadRule
  | notSingleAction
  | tableInUse
  | unexpectedRewriteResult
  | interrupted
  | planFailed
  | execFailed
  | relationNotFound
  deriving DecidableEq, Repr

/-- Internal-consistency faults: the elog(ERROR, ...) calls of matview.c. -/
def RefreshError.isInternal : RefreshError → Bool
  | .missingRewriteInfo => true
  | .tooManyRules => true
  | .notSelectInsteadRule => true
  | .notSingleAction => true
  | .unexpectedRewriteResult => true
  | _ => false

/-- User errors: bad target name or kind, reported with a user-facing errcode. -/
def RefreshError.isUserError : RefreshError → Bool
  | .resolutionFailed => true
  | .notMatview => true
  | _ => false

/-- Concurrency errors: CheckTableNotInUse reporting ERRCODE_OBJECT_IN_USE. -/
def RefreshError.isConcurrencyError : RefreshError → Bool
  | .tableInUse => true
  | _ => false

/-- The observable world state threaded through the refresh. -/
structure World where
  view : Rel
  transient : Option Rel
  nextOid : Nat
  nextFilenode : Nat
  snapshotStack : List Nat
  commandIdCounter : Nat
  deriving DecidableEq, Repr

/-- heap_open by oid: during a refresh the only relation opened by oid through the
sink is the transient heap, so the lookup resolves against it. -/
def World.heapOpen (w : World) (oid : Nat) : Option Rel :=
  match w.transient with
  | some t => if t.oid = oid then some t else none
  | none => none

/-- Outcomes of the external collaborators consumed by one refresh invocation. -/
structure Env where
  resolveOk : Bool
  tableInUse : Bool
  xlogIsNeeded : Bool
  rewritten : List Query
  interruptPending : Bool
  planOk : Bool
  execRows : List Row
  execFails : Bool
  deriving DecidableEq, Repr

/-- REFRESH MATERIALIZED VIEW statement node: only skipData matters to the core. -/
structure RefreshMatViewStmt where
  skipData : Bool
  deriving DecidableEq, Repr

def HEAP_INSERT_SKIP_WAL : Nat := 1
def HEAP_INSERT_SKIP_FSM : Nat := 2
def HEAP_INSERT_FROZEN : Nat := 4

/-- heap_insert appends the row to the last existing page (the bulk-insert target
block); a fresh page is only made when the heap has none, which the refresh path
never exercises because the populated-state transition writes page zero first. -/
def appendRowToPages (row : Row) : List Page → List Page
  | [] => [{ initialized := true, checksummed := false, rows := [row] }]
  | [p] => [{ p with rows := p.rows ++ [row] }]
  | p :: q :: rest => p :: appendRowToPages row (q :: rest)

/-- Insert one row into the storage of a relation. -/
def Rel.insertRow (r : Rel) (row : Row) : Rel :=
  { r with pages := appendRowToPages row r.pages }

/-- SetMatViewToPopulated (matview.c lines 63 to 87): build one initialized page,
WAL-log it first when the relation needs WAL, set its checksum, extend the storage
with it at block zero, then synchronously flush and invalidate the relcache entry.
Returns the emitted events and the relation with the new page appended. -/
def SetMatViewToPopulated (relation : Rel) : List Event × Rel :=
  let page : Page := { initialized := true, checksummed := false, rows := [] }
  let walEvents :=
    if relation.needsWAL then [Event.logNewPage relation.filenode 0] else []
  let page := { page with checksummed := true }
  (walEvents ++
     [Event.smgrextend relation.filenode 0 page,
      Event.smgrimmedsync relation.filenode,
      Event.relcacheInvalidate relation.oid],
   { relation with pages := relation.pages ++ [page] })

/-- DR_transientrel: the sink state.  The cached Relation pointer is modelled as
the oid of the opened relation, none when not opened or already closed. -/
structure DR_transientrel where
  transientoid : Nat
  transientrel : Option Nat
  output_cid : Nat
  hi_options : Nat
  deriving DecidableEq, Repr

/-- CreateTransientRelDestReceiver (matview.c lines 284 to 297); palloc0 zero-fills
the private fields. -/
def CreateTransientRelDestReceiver (transientoid : Nat) : DR_transientrel :=
  { transientoid := transientoid, transientrel := none, output_cid := 0, hi_options := 0 }

/-- transientrel_startup (matview.c lines 302 to 329): open the transient heap,
record the current command id, select the insert options (skip FSM, frozen, and
skip WAL unless XLogIsNeeded), get a bulk-insert buffer, then run
SetMatViewToPopulated on the transient heap. -/
def transientrel_startup (myState : DR_transientrel) (xlogIsNeeded : Bool) (w : World) :
    List Event × World × DR_transientrel × Option RefreshError :=
  match w.heapOpen myState.transientoid with
  | none => ([], w, myState, some .relationNotFound)
  | some transientrel =>
    let output_cid := w.commandIdCounter
    let hi0 := HEAP_INSERT_SKIP_FSM ||| HEAP_INSERT_FROZEN
    let hi := if !xlogIsNeeded then hi0 ||| HEAP_INSERT_SKIP_WAL else hi0
    (Event.getBulkInsertState :: (SetMatViewToPopulated transientrel).1,
     { w with transient := some (SetMatViewToPopulated transientrel).2 },
     { myState with
         transientrel := some transientrel.oid,
         output_cid := output_cid,
         hi_options := hi },
     none)

/-- transientrel_receive (matview.c lines 334 to 353): materialize the tuple and
heap_insert it into the transient heap with the recorded command id and options;
no index maintenance. -/
def transientrel_receive (row : Row) (myState : DR_transientrel) (w : World) :
    List Event × World :=
  match myState.transientrel with
  | none => ([], w)
  | some oid =>
    match w.heapOpen oid with
    | none => ([], w)
    | some t =>
      ([Event.heapInsert t.filenode row myState.output_cid myState.hi_options],
       { w with transient := some (t.insertRow row) })

/-- transientrel_shutdown (matview.c lines 358 to 372): free the bulk-insert
buffer, heap_sync the transient heap exactly when HEAP_INSERT_SKIP_WAL was used,
then close the relation handle. -/
def transientrel_shutdown (myState : DR_transientrel) (w : World) :
    List Event × DR_transientrel :=
  let syncEvents :=
    match myState.transientrel with
    | some oid =>
      if myState.hi_options &&& HEAP_INSERT_SKIP_WAL ≠ 0 then
        match w.heapOpen oid with
        | some t => [Event.heapSync t.filenode]
        | none => []
      else []
    | none => []
  (Event.freeBulkInsertState :: syncEvents,
   { myState with transientrel := none })

/-- transientrel_destroy (matview.c lines 377 to 381): release the receiver; no
storage-level effect. -/
def transientrel_destroy (myState : DR_transientrel) : List Event :=
  []

/-- One receive call per executor result row, in order. -/
def receiveAll (rows : List Row) (myState : DR_transientrel) (w : World) :
    List Event × World :=
  match rows with
  | [] => ([], w)
  | r :: rs =>
    let step := transientrel_receive r myState w
    let rest := receiveAll rs myState step.2
    (step.1 ++ rest.1, rest.2)

/-- Modelled from the spec: the Planner and Executor collaborator, whose code
(executor machinery) is not under src.  execute drives the open, receive times N,
close sequence of the sink: rStartup once, then one receiveSlot call per result
row, then rShutdown.  An execution failure aborts after the produced rows and
before rShutdown. -/
def executorRun (rows : List Row) (execFails : Bool) (xlogIsNeeded : Bool)
    (dest : DR_transientrel) (w : World) :
    List Event × World × DR_transientrel × Option RefreshError :=
  let su := transientrel_startup dest xlogIsNeeded w
  match su.2.2.2 with
  | some e => (su.1, su.2.1, su.2.2.1, some e)
  | none =>
    let ra := receiveAll rows su.2.2.1 su.2.1
    if execFails then (su.1 ++ ra.1, ra.2, su.2.2.1, some .execFailed)
    else
      let sh := transientrel_shutdown su.2.2.1 ra.2
      (su.1 ++ ra.1 ++ sh.1, ra.2, sh.2, none)

/-- Set isResultRel on the first two range table entries (the synthetic new and
old placeholder entries), as refresh_matview_datafill does on linitial and
lsecond of the rewritten rtable. -/
def flagFirstTwo : List RangeTblEntry → List RangeTblEntry
  | [] => []
  | [a] => [{ a with isResultRel := true }]
  | a :: b :: rest => { a with isResultRel := true } :: { b with isResultRel := true } :: rest

/-- refresh_matview_datafill (matview.c lines 211 to 282): rewrite the copied
defining query and require exactly one result query; CHECK_FOR_INTERRUPTS; flag
the first two range table entries as result relations; plan the query; push a
copy of the active snapshot and update its command id; run the executor with the
transient-rel receiver; pop the active snapshot. -/
def refresh_matview_datafill (dest : DR_transientrel) (query : Query) (env : Env) (w : World) :
    List Event × World × DR_transientrel × Option RefreshError :=
  match env.rewritten with
  | [query1] =>
    if env.interruptPending then
      ([Event.checkForInterrupts], w, dest, some .interrupted)
    else
      let query2 : Query := { query1 with rtable := flagFirstTwo query1.rtable }
      let evPlan := [Event.checkForInterrupts, Event.planQuery query2]
      if !env.planOk then (evPlan, w, dest, some .planFailed)
      else
        let active := w.snapshotStack.headD 0
        let w1 := { w with snapshotStack := active :: w.snapshotStack }
        let evSnap := [Event.pushSnapshot active, Event.updateSnapshotCommandId]
        let ex := executorRun env.execRows env.execFails env.xlogIsNeeded dest w1
        match ex.2.2.2 with
        | some e =>
          (evPlan ++ evSnap ++ Event.executorRunEv :: ex.1, ex.2.1, ex.2.2.1, some e)
        | none =>
          let w3 := { ex.2.1 with snapshotStack := (ex.2.1).snapshotStack.tail }
          (evPlan ++ evSnap ++ Event.executorRunEv :: ex.1 ++ [Event.popSnapshot],
           w3, ex.2.2.1, none)
  | _ => ([], w, dest, some .unexpectedRewriteResult)

/-- Modelled from the spec: the Swap utility (cluster.c, not under src) performing
finish_heap_swap: atomically exchange the storage identities so the view keeps its
catalog identity and takes over the transient storage, contents included; rebuild
indexes and drop the transient table. -/
def finish_heap_swap (w : World) (targetOid : Nat) : World :=
  match w.transient with
  | some t =>
    if w.view.oid = targetOid then
      { w with
          view := { w.view with filenode := t.filenode, pages := t.pages },
          transient := none }
    else w
  | none => w

/-- Result of one ExecRefreshMatView invocation: the emitted trace, the final
world, and the raised error when the operation aborted. -/
structure Result where
  trace : List Event
  world : World
  error : Option RefreshError
  deriving DecidableEq, Repr

/-- ExecRefreshMatView (matview.c lines 109 to 206): lock and resolve the target;
require it to be a materialized view; require exactly one SELECT INSTEAD rule with
exactly one action (elog internal errors otherwise); CheckTableNotInUse; create
the transient heap in the same tablespace via make_new_heap; run the datafill
unless skipData; finish_heap_swap the filenodes; invalidate the relcache entry. -/
def ExecRefreshMatView (stmt : RefreshMatViewStmt) (env : Env) (w : World) : Result :=
  if !env.resolveOk then { trace := [], world := w, error := some .resolutionFailed }
  else
    let matviewRel := w.view
    if matviewRel.relkind ≠ RelKind.matview then
      { trace := [], world := w, error := some .notMatview }
    else if matviewRel.relhasrules = false ∨ matviewRel.rules.length < 1 then
      { trace := [], world := w, error := some .missingRewriteInfo }
    else if matviewRel.rules.length > 1 then
      { trace := [], world := w, error := some .tooManyRules }
    else
      match matviewRel.rules.head? with
      | none => { trace := [], world := w, error := some .missingRewriteInfo }
      | some rule =>
        if rule.event ≠ CmdType.select ∨ rule.isInstead = false then
          { trace := [], world := w, error := some .notSelectInsteadRule }
        else if rule.actions.length ≠ 1 then
          { trace := [], world := w, error := some .notSingleAction }
        else
          match rule.actions.head? with
          | none => { trace := [], world := w, error := some .notSingleAction }
          | some dataQuery =>
            let evCheck := [Event.checkTableNotInUse matviewRel.oid]
            if env.tableInUse then
              { trace := evCheck, world := w, error := some .tableInUse }
            else
              let tableSpace := matviewRel.reltablespace
              let transient : Rel :=
                { oid := w.nextOid, relkind := RelKind.matview, relhasrules := false,
                  rules := [], reltablespace := tableSpace,
                  needsWAL := matviewRel.needsWAL,
                  filenode := w.nextFilenode, pages := [] }
              let w1 : World :=
                { w with
                    transient := some transient,
                    nextOid := w.nextOid + 1,
                    nextFilenode := w.nextFilenode + 1 }
              let evMake :=
                evCheck ++ [Event.makeNewHeap transient.oid transient.filenode tableSpace]
              let dest := CreateTransientRelDestReceiver transient.oid
              let fill :=
                if stmt.skipData then (([] : List Event), w1, dest, (none : Option RefreshError))
                else refresh_matview_datafill dest dataQuery env w1
              match fill.2.2.2 with
              | some e => { trace := evMake ++ fill.1, world := fill.2.1, error := some e }
              | none =>
                let w3 := finish_heap_swap fill.2.1 matviewRel.oid
                { trace := evMake ++ fill.1 ++
                     [Event.finishHeapSwap matviewRel.oid,
                      Event.relcacheInvalidate matviewRel.oid],
                  world := w3, error := none }

/-- Is the event the atomic storage swap. -/
def isSwapEvent : Event → Bool
  | .finishHeapSwap _ => true
  | _ => false

/-- Is the event a heap-insert of a row. -/
def isHeapInsertEvent : Event → Bool
  | .heapInsert _ _ _ _ => true
  | _ => false

/-- Is the event a planner invocation. -/
def isPlanEvent : Event → Bool
  | .planQuery _ => true
  | _ => false

/-- Is the event a push onto the active-snapshot stack. -/
def isPushSnapshotEvent : Event → Bool
  | .pushSnapshot _ => true
  | _ => false

/-- Is the event a pop of the active-snapshot stack. -/
def isPopSnapshotEvent : Event → Bool
  | .popSnapshot => true
  | _ => false

/-- Is the event a cooperative-cancellation check. -/
def isInterruptCheckEvent : Event → Bool
  | .checkForInterrupts => true
  | _ => false

/-- Is the event the creation of a transient heap. -/
def isMakeNewHeapEvent : Event → Bool
  | .makeNewHeap _ _ _ => true
  | _ => false

/-- Is the event the populated-state transition page write (storage extension with
the initial page at block zero) on the storage with the given filenode. -/
def isTransitionWrite (fn : Nat) : Event → Bool
  | .smgrextend fn2 blk _ => fn2 == fn && blk == 0
  | _ => false

/-- Is the event a forced synchronous flush (heap_sync) of the given filenode. -/
def isHeapSyncEvent : Event → Bool
  | .heapSync _ => true
  | _ => false

/-- Is the event an executor invocation. -/
def isExecutorRunEvent : Event → Bool
  | .executorRunEv => true
  | _ => false

/-- Events the tuple sink itself can emit (bulk-insert buffer handling, the
populated-state transition page write with its WAL record, sync and relcache
calls, heap inserts, the compensating heap_sync). -/
def isSinkEvent : Event → Bool
  | .getBulkInsertState => true
  | .freeBulkInsertState => true
  | .logNewPage _ _ => true
  | .smgrextend _ _ _ => true
  | .smgrimmedsync _ => true
  | .relcacheInvalidate _ => true
  | .heapInsert _ _ _ _ => true
  | .heapSync _ => true
  | _ => false

/-- Fold of heap_insert over a list of rows, in order. -/
def Rel.insertRows (r : Rel) (rows : List Row) : Rel :=
  rows.foldl Rel.insertRow r

end Matview

namespace Matview

/- Concrete fixture used by witnesses and counterexamples. -/

def rteNew : RangeTblEntry := { aliasname := "new", isResultRel := false }

def rteOld : RangeTblEntry := { aliasname := "old", isResultRel := false }

def q0 : Query := { rtable := [rteNew, rteOld] }

def rule0 : RewriteRule := { event := .select, isInstead := true, actions := [q0] }

def view0 : Rel :=
  { oid := 100, relkind := .matview, relhasrules := true, rules := [rule0],
    reltablespace := 1, needsWAL := true, filenode := 50,
    pages := [{ initialized := true, checksummed := true, rows := [1, 2] }] }

def w0 : World :=
  { view := view0, transient := none, nextOid := 200, nextFilenode := 300,
    snapshotStack := [7], commandIdCounter := 3 }

def env0 : Env :=
  { resolveOk := true, tableInUse := false, xlogIsNeeded := false,
    rewritten := [q0], interruptPending := false, planOk := true,
    execRows := [10, 20], execFails := false }

/-- An unpopulated (zero-page) relation, as make_new_heap produces it. -/
def unpopRel : Rel :=
  { oid := 1, relkind := .matview, relhasrules := false, rules := [],
    reltablespace := 0, needsWAL := true, filenode := 9, pages := [] }

/-- A world holding the unpopulated transient relation. -/
def wT : World :=
  { view := view0, transient := some unpopRel, nextOid := 200, nextFilenode := 300,
    snapshotStack := [7], commandIdCounter := 3 }

/-- A world whose view has relhasrules set but an empty rule list. -/
def wBadRules : World :=
  { view := { view0 with rules := [] }, transient := none, nextOid := 200,
    nextFilenode := 300, snapshotStack := [7], commandIdCounter := 3 }

/-- env0 with the view in active use in the current transaction. -/
def envInUse : Env :=
  { env0 with tableInUse := true }

/-- The transient relation make_new_heap creates for a refresh of the view of w:
a fresh catalog identity and a fresh storage identity in the same tablespace,
with no rules and no pages. -/
def transientFor (w : World) : Rel :=
  { oid := w.nextOid, relkind := RelKind.matview, relhasrules := false, rules := [],
    reltablespace := w.view.reltablespace, needsWAL := w.view.needsWAL,
    filenode := w.nextFilenode, pages := [] }

/-- The world right after make_new_heap created the transient relation. -/
def fillWorld (w : World) : World :=
  { w with
      transient := some (transientFor w),
      nextOid := w.nextOid + 1,
      nextFilenode := w.nextFilenode + 1 }

/-- The datafill call ExecRefreshMatView performs when skipData is false. -/
def datafillOf (env : Env) (a : Query) (w : World) :
    List Event × World × DR_transientrel × Option RefreshError :=
  refresh_matview_datafill (CreateTransientRelDestReceiver w.nextOid) a env (fillWorld w)

end Matview


namespace Matview

/- Basic storage lemmas. -/

theorem appendRowToPages_ne_nil (x : Row) (ps : List Page) :
    appendRowToPages x ps ≠ [] := by
  match ps with
  | [] => simp [appendRowToPages]
  | [p] => simp [appendRowToPages]
  | p :: q :: rest => simp [appendRowToPages]

theorem appendRowToPages_rows (x : Row) :
    ∀ ps : List Page,
      ((appendRowToPages x ps).map Page.rows).flatten = (ps.map Page.rows).flatten ++ [x]
  | [] => by simp [appendRowToPages]
  | [p] => by simp [appendRowToPages]
  | p :: q :: rest => by
    have ih := appendRowToPages_rows x (q :: rest)
    simp only [appendRowToPages, List.map_cons, List.flatten_cons] at ih ⊢
    rw [ih]
    simp [List.append_assoc]

theorem insertRow_oid (r : Rel) (x : Row) : (r.insertRow x).oid = r.oid := rfl

theorem insertRow_filenode (r : Rel) (x : Row) : (r.insertRow x).filenode = r.filenode := rfl

theorem insertRow_contents (r : Rel) (x : Row) :
    (r.insertRow x).contents = r.contents ++ [x] := by
  simp [Rel.insertRow, Rel.contents, appendRowToPages_rows]

theorem insertRow_ispopulated (r : Rel) (x : Row) :
    (r.insertRow x).ispopulated = true := by
  simp [Rel.insertRow, Rel.ispopulated, List.isEmpty_iff, appendRowToPages_ne_nil]

theorem insertRows_oid (rows : List Row) : ∀ r : Rel, (r.insertRows rows).oid = r.oid := by
  induction rows with
  | nil => intro r; rfl
  | cons a rs ih =>
    intro r
    simpa [Rel.insertRows, List.foldl_cons] using ih (r.insertRow a)

theorem insertRows_filenode (rows : List Row) :
    ∀ r : Rel, (r.insertRows rows).filenode = r.filenode := by
  induction rows with
  | nil => intro r; rfl
  | cons a rs ih =>
    intro r
    simpa [Rel.insertRows, List.foldl_cons] using ih (r.insertRow a)

theorem insertRows_contents (rows : List Row) :
    ∀ r : Rel, (r.insertRows rows).contents = r.contents ++ rows := by
  induction rows with
  | nil => intro r; simp [Rel.insertRows]
  | cons a rs ih =>
    intro r
    have h := ih (r.insertRow a)
    simp only [Rel.insertRows, List.foldl_cons] at h ⊢
    rw [h, insertRow_contents, List.append_assoc]
    rfl

theorem insertRows_ispopulated (rows : List Row) :
    ∀ r : Rel, r.ispopulated = true → (r.insertRows rows).ispopulated = true := by
  induction rows with
  | nil => intro r h; simpa [Rel.insertRows] using h
  | cons a rs ih =>
    intro r h
    simpa [Rel.insertRows, List.foldl_cons] using ih (r.insertRow a) (insertRow_ispopulated r a)

theorem heapOpen_some (w : World) (oid : Nat) (t : Rel) (h : w.heapOpen oid = some t) :
    w.transient = some t ∧ t.oid = oid := by
  unfold World.heapOpen at h
  cases hw : w.transient with
  | none => rw [hw] at h; cases h
  | some t0 =>
    rw [hw] at h
    by_cases ho : t0.oid = oid
    · simp only [ho, if_true, Option.some.injEq] at h
      subst h
      exact ⟨rfl, ho⟩
    · simp only [ho, if_false] at h
      cases h

theorem SetMatViewToPopulated_snd (r : Rel) :
    (SetMatViewToPopulated r).2 =
      { r with pages := r.pages ++ [{ initialized := true, checksummed := true, rows := [] }] } := rfl

theorem SetMatViewToPopulated_fst (r : Rel) :
    (SetMatViewToPopulated r).1 =
      (if r.needsWAL then [Event.logNewPage r.filenode 0] else []) ++
        [Event.smgrextend r.filenode 0 { initialized := true, checksummed := true, rows := [] },
         Event.smgrimmedsync r.filenode,
         Event.relcacheInvalidate r.oid] := rfl

theorem SetMatViewToPopulated_ispopulated (r : Rel) :
    (SetMatViewToPopulated r).2.ispopulated = true := by
  rw [SetMatViewToPopulated_snd]
  simp [Rel.ispopulated]

theorem SetMatViewToPopulated_contents (r : Rel) :
    (SetMatViewToPopulated r).2.contents = r.contents := by
  rw [SetMatViewToPopulated_snd]
  simp [Rel.contents]

end Matview

namespace Matview

/- Sink operation specifications and frame lemmas. -/

theorem transientrel_startup_spec (dest : DR_transientrel) (xlog : Bool) (w : World) (t : Rel)
    (h : w.heapOpen dest.transientoid = some t) :
    transientrel_startup dest xlog w =
      (Event.getBulkInsertState :: (SetMatViewToPopulated t).1,
       { w with transient := some (SetMatViewToPopulated t).2 },
       { dest with
           transientrel := some t.oid,
           output_cid := w.commandIdCounter,
           hi_options :=
             if !xlog then (HEAP_INSERT_SKIP_FSM ||| HEAP_INSERT_FROZEN) ||| HEAP_INSERT_SKIP_WAL
             else HEAP_INSERT_SKIP_FSM ||| HEAP_INSERT_FROZEN },
       none) := by
  unfold transientrel_startup
  rw [h]

theorem transientrel_startup_view (dest : DR_transientrel) (xlog : Bool) (w : World) :
    (transientrel_startup dest xlog w).2.1.view = w.view := by
  unfold transientrel_startup
  cases h : w.heapOpen dest.transientoid with
  | none => rfl
  | some t => rfl

theorem transientrel_startup_stack (dest : DR_transientrel) (xlog : Bool) (w : World) :
    (transientrel_startup dest xlog w).2.1.snapshotStack = w.snapshotStack := by
  unfold transientrel_startup
  cases h : w.heapOpen dest.transientoid with
  | none => rfl
  | some t => rfl

theorem transientrel_receive_view (r : Row) (m : DR_transientrel) (w : World) :
    (transientrel_receive r m w).2.view = w.view := by
  unfold transientrel_receive
  split
  · rfl
  · split
    · rfl
    · rfl

theorem transientrel_receive_stack (r : Row) (m : DR_transientrel) (w : World) :
    (transientrel_receive r m w).2.snapshotStack = w.snapshotStack := by
  unfold transientrel_receive
  split
  · rfl
  · split
    · rfl
    · rfl

theorem receiveAll_view (rows : List Row) (m : DR_transientrel) :
    ∀ w : World, (receiveAll rows m w).2.view = w.view := by
  induction rows with
  | nil => intro w; rfl
  | cons r rs ih =>
    intro w
    show (receiveAll (r :: rs) m w).2.view = w.view
    unfold receiveAll
    rw [ih (transientrel_receive r m w).2, transientrel_receive_view]

theorem receiveAll_stack (rows : List Row) (m : DR_transientrel) :
    ∀ w : World, (receiveAll rows m w).2.snapshotStack = w.snapshotStack := by
  induction rows with
  | nil => intro w; rfl
  | cons r rs ih =>
    intro w
    unfold receiveAll
    rw [ih (transientrel_receive r m w).2, transientrel_receive_stack]

theorem executorRun_view (rows : List Row) (fails xlog : Bool) (dest : DR_transientrel)
    (w : World) : (executorRun rows fails xlog dest w).2.1.view = w.view := by
  simp only [executorRun]
  cases h : (transientrel_startup dest xlog w).2.2.2 with
  | some e => simp [transientrel_startup_view]
  | none =>
    cases fails with
    | true => simp [receiveAll_view, transientrel_startup_view]
    | false => simp [receiveAll_view, transientrel_startup_view]

theorem executorRun_stack (rows : List Row) (fails xlog : Bool) (dest : DR_transientrel)
    (w : World) : (executorRun rows fails xlog dest w).2.1.snapshotStack = w.snapshotStack := by
  simp only [executorRun]
  cases h : (transientrel_startup dest xlog w).2.2.2 with
  | some e => simp [transientrel_startup_stack]
  | none =>
    cases fails with
    | true => simp [receiveAll_stack, transientrel_startup_stack]
    | false => simp [receiveAll_stack, transientrel_startup_stack]

end Matview

namespace Matview

/- Trace classification lemmas. -/

theorem heapInsertEvent_sink (e : Event) (h : isHeapInsertEvent e = true) :
    isSinkEvent e = true := by
  cases e <;> simp_all [isHeapInsertEvent, isSinkEvent]

theorem sink_event_classify (e : Event) (h : isSinkEvent e = true) :
    isSwapEvent e = false ∧ isPushSnapshotEvent e = false ∧ isPopSnapshotEvent e = false ∧
    isPlanEvent e = false ∧ isInterruptCheckEvent e = false ∧ isMakeNewHeapEvent e = false ∧
    isExecutorRunEvent e = false := by
  cases e <;>
    simp_all [isSinkEvent, isSwapEvent, isPushSnapshotEvent, isPopSnapshotEvent,
      isPlanEvent, isInterruptCheckEvent, isMakeNewHeapEvent, isExecutorRunEvent]

theorem SetMatViewToPopulated_trace_sink (r : Rel) :
    ∀ e ∈ (SetMatViewToPopulated r).1, isSinkEvent e = true := by
  rw [SetMatViewToPopulated_fst]
  cases hw : r.needsWAL <;> simp [isSinkEvent]

theorem SetMatViewToPopulated_trace_noInsert (r : Rel) :
    ∀ e ∈ (SetMatViewToPopulated r).1, isHeapInsertEvent e = false := by
  rw [SetMatViewToPopulated_fst]
  cases hw : r.needsWAL <;> simp [isHeapInsertEvent]

theorem SetMatViewToPopulated_trace_countP (r : Rel) :
    (SetMatViewToPopulated r).1.countP (isTransitionWrite r.filenode) = 1 := by
  rw [SetMatViewToPopulated_fst]
  cases hw : r.needsWAL <;>
    simp [List.countP_append, List.countP_cons, isTransitionWrite]

theorem transientrel_startup_trace_sink (dest : DR_transientrel) (xlog : Bool) (w : World) :
    ∀ e ∈ (transientrel_startup dest xlog w).1, isSinkEvent e = true := by
  unfold transientrel_startup
  cases h : w.heapOpen dest.transientoid with
  | none => simp
  | some t =>
    intro e he
    have he2 : e ∈ Event.getBulkInsertState :: (SetMatViewToPopulated t).1 := he
    rcases List.mem_cons.mp he2 with h1 | h1
    · rw [h1]; rfl
    · exact SetMatViewToPopulated_trace_sink t e h1

theorem transientrel_receive_trace (r : Row) (m : DR_transientrel) (w : World) :
    ∀ e ∈ (transientrel_receive r m w).1, isHeapInsertEvent e = true := by
  unfold transientrel_receive
  split
  · simp
  · split
    · simp
    · simp [isHeapInsertEvent]

theorem receiveAll_trace (rows : List Row) (m : DR_transientrel) :
    ∀ w : World, ∀ e ∈ (receiveAll rows m w).1, isHeapInsertEvent e = true := by
  induction rows with
  | nil => intro w e he; simp [receiveAll] at he
  | cons r rs ih =>
    intro w e he
    have he2 : e ∈ (transientrel_receive r m w).1 ++
        (receiveAll rs m (transientrel_receive r m w).2).1 := he
    rcases List.mem_append.mp he2 with h | h
    · exact transientrel_receive_trace r m w e h
    · exact ih _ e h

theorem transientrel_shutdown_trace_classify (m : DR_transientrel) (w : World) :
    ∀ e ∈ (transientrel_shutdown m w).1,
      isSinkEvent e = true ∧ (∀ fn, isTransitionWrite fn e = false) ∧
      isHeapInsertEvent e = false := by
  intro e he
  simp only [transientrel_shutdown] at he
  rcases List.mem_cons.mp he with h | h
  · rw [h]
    exact ⟨rfl, fun fn => rfl, rfl⟩
  · split at h
    · split at h
      · split at h
        · simp only [List.mem_singleton] at h
          rw [h]
          exact ⟨rfl, fun fn => rfl, rfl⟩
        · exact absurd h (List.not_mem_nil e)
      · exact absurd h (List.not_mem_nil e)
    · exact absurd h (List.not_mem_nil e)

theorem executorRun_trace_sink (rows : List Row) (fails xlog : Bool)
    (dest : DR_transientrel) (w : World) :
    ∀ e ∈ (executorRun rows fails xlog dest w).1, isSinkEvent e = true := by
  intro e he
  simp only [executorRun] at he
  split at he
  · exact transientrel_startup_trace_sink dest xlog w e he
  · split at he
    · have he2 : e ∈ (transientrel_startup dest xlog w).1 ++
          (receiveAll rows (transientrel_startup dest xlog w).2.2.1
            (transientrel_startup dest xlog w).2.1).1 := he
      rcases List.mem_append.mp he2 with h | h
      · exact transientrel_startup_trace_sink dest xlog w e h
      · exact heapInsertEvent_sink e (receiveAll_trace rows _ _ e h)
    · have he2 : e ∈ (transientrel_startup dest xlog w).1 ++
          ((receiveAll rows (transientrel_startup dest xlog w).2.2.1
             (transientrel_startup dest xlog w).2.1).1 ++
           (transientrel_shutdown (transientrel_startup dest xlog w).2.2.1
             (receiveAll rows (transientrel_startup dest xlog w).2.2.1
               (transientrel_startup dest xlog w).2.1).2).1) := by
        simpa [List.append_assoc] using he
      rcases List.mem_append.mp he2 with h | h
      · exact transientrel_startup_trace_sink dest xlog w e h
      · rcases List.mem_append.mp h with h1 | h1
        · exact heapInsertEvent_sink e (receiveAll_trace rows _ _ e h1)
        · exact (transientrel_shutdown_trace_classify _ _ e h1).1

end Matview

namespace Matview

/- Operational equations for the sink under the intended usage. -/

theorem heapOpen_self (w : World) (t : Rel) (h : w.transient = some t) :
    w.heapOpen t.oid = some t := by
  unfold World.heapOpen
  rw [h]
  simp

theorem receiveAll_spec (rows : List Row) :
    ∀ (m : DR_transientrel) (w : World) (t : Rel),
      m.transientrel = some t.oid → w.transient = some t →
      receiveAll rows m w =
        (rows.map (fun r => Event.heapInsert t.filenode r m.output_cid m.hi_options),
         { w with transient := some (t.insertRows rows) }) := by
  induction rows with
  | nil =>
    intro m w t h1 h2
    show ([], w) = _
    simp only [Rel.insertRows, List.foldl_nil, List.map_nil]
    rw [← h2]
  | cons r rs ih =>
    intro m w t h1 h2
    have hopen : w.heapOpen t.oid = some t := heapOpen_self w t h2
    have hstep : transientrel_receive r m w =
        ([Event.heapInsert t.filenode r m.output_cid m.hi_options],
         { w with transient := some (t.insertRow r) }) := by
      unfold transientrel_receive
      simp only [h1, hopen]
    have hrec := ih m { w with transient := some (t.insertRow r) } (t.insertRow r)
      (by rw [h1, insertRow_oid]) rfl
    show ((transientrel_receive r m w).1 ++
            (receiveAll rs m (transientrel_receive r m w).2).1,
          (receiveAll rs m (transientrel_receive r m w).2).2) = _
    rw [hstep]
    simp only [hrec]
    simp [Rel.insertRows, List.foldl_cons, insertRow_filenode]

theorem transientrel_shutdown_spec (m : DR_transientrel) (w : World) (t : Rel)
    (h1 : m.transientrel = some t.oid) (h2 : w.transient = some t) :
    transientrel_shutdown m w =
      (Event.freeBulkInsertState ::
         (if m.hi_options &&& HEAP_INSERT_SKIP_WAL ≠ 0 then [Event.heapSync t.filenode]
          else []),
       { m with transientrel := none }) := by
  unfold transientrel_shutdown
  have hopen : w.heapOpen t.oid = some t := heapOpen_self w t h2
  simp only [h1, hopen]

end Matview

namespace Matview

theorem SetMatViewToPopulated_oid (r : Rel) : (SetMatViewToPopulated r).2.oid = r.oid := rfl

theorem SetMatViewToPopulated_filenode (r : Rel) :
    (SetMatViewToPopulated r).2.filenode = r.filenode := rfl

theorem executorRun_success (rows : List Row) (xlog : Bool) (dest : DR_transientrel)
    (w : World) (t : Rel) (h1 : w.transient = some t) (h2 : dest.transientoid = t.oid) :
    (executorRun rows false xlog dest w).2.1 =
      { w with transient := some (((SetMatViewToPopulated t).2).insertRows rows) } ∧
    (executorRun rows false xlog dest w).2.2.2 = none := by
  have hopen : w.heapOpen dest.transientoid = some t := by
    rw [h2]; exact heapOpen_self w t h1
  have hsu := transientrel_startup_spec dest xlog w t hopen
  have hra := receiveAll_spec rows
    { dest with
        transientrel := some t.oid,
        output_cid := w.commandIdCounter,
        hi_options :=
          if !xlog then (HEAP_INSERT_SKIP_FSM ||| HEAP_INSERT_FROZEN) ||| HEAP_INSERT_SKIP_WAL
          else HEAP_INSERT_SKIP_FSM ||| HEAP_INSERT_FROZEN }
    { w with transient := some (SetMatViewToPopulated t).2 }
    (SetMatViewToPopulated t).2 rfl rfl
  constructor
  · simp only [executorRun, hsu]
    show (receiveAll rows _ _).2 = _
    rw [hra]
  · simp only [executorRun, hsu]
    rfl

end Matview

namespace Matview

theorem executorRun_fails (rows : List Row) (xlog : Bool) (dest : DR_transientrel)
    (w : World) : ∃ e, (executorRun rows true xlog dest w).2.2.2 = some e := by
  simp only [executorRun]
  cases h : (transientrel_startup dest xlog w).2.2.2 with
  | some e => exact ⟨e, rfl⟩
  | none => exact ⟨.execFailed, rfl⟩

theorem refresh_matview_datafill_view (dest : DR_transientrel) (q : Query) (env : Env)
    (w : World) : (refresh_matview_datafill dest q env w).2.1.view = w.view := by
  simp only [refresh_matview_datafill]
  split
  · split
    · rfl
    · split
      · rfl
      · split
        · rw [executorRun_view]
        · show ({ (executorRun env.execRows env.execFails env.xlogIsNeeded dest _).2.1 with
              snapshotStack := _ }).view = w.view
          rw [executorRun_view]
  · rfl

theorem refresh_matview_datafill_spec (dest : DR_transientrel) (q : Query) (env : Env)
    (w : World) (t : Rel) (q1 : Query)
    (hrw : env.rewritten = [q1]) (hint : env.interruptPending = false)
    (hplan : env.planOk = true) (hfail : env.execFails = false)
    (h1 : w.transient = some t) (h2 : dest.transientoid = t.oid) :
    (refresh_matview_datafill dest q env w).2.2.2 = none ∧
    (refresh_matview_datafill dest q env w).2.1.transient =
      some (((SetMatViewToPopulated t).2).insertRows env.execRows) ∧
    (refresh_matview_datafill dest q env w).2.1.snapshotStack = w.snapshotStack := by
  have hexec := executorRun_success env.execRows env.xlogIsNeeded dest
    { w with snapshotStack := w.snapshotStack.head?.getD 0 :: w.snapshotStack } t h1 h2
  refine ⟨?_, ?_, ?_⟩ <;>
    simp [refresh_matview_datafill, hrw, hint, hplan, hfail, hexec.1, hexec.2]

theorem refresh_matview_datafill_outcome (dest : DR_transientrel) (q : Query) (env : Env)
    (w : World) (t : Rel) (h1 : w.transient = some t) (h2 : dest.transientoid = t.oid) :
    ((refresh_matview_datafill dest q env w).2.2.2 = none ∧
     (refresh_matview_datafill dest q env w).2.1.transient =
       some (((SetMatViewToPopulated t).2).insertRows env.execRows) ∧
     (refresh_matview_datafill dest q env w).2.1.snapshotStack = w.snapshotStack) ∨
    (∃ e, (refresh_matview_datafill dest q env w).2.2.2 = some e) := by
  rcases henv : env.rewritten with _ | ⟨q1, _ | ⟨q2, rest⟩⟩
  · exact Or.inr ⟨.unexpectedRewriteResult, by simp [refresh_matview_datafill, henv]⟩
  · cases hint : env.interruptPending with
    | true => exact Or.inr ⟨.interrupted, by simp [refresh_matview_datafill, henv, hint]⟩
    | false =>
      cases hplan : env.planOk with
      | false => exact Or.inr ⟨.planFailed, by simp [refresh_matview_datafill, henv, hint, hplan]⟩
      | true =>
        cases hfail : env.execFails with
        | true =>
          obtain ⟨e, he⟩ := executorRun_fails env.execRows env.xlogIsNeeded dest
            { w with snapshotStack := w.snapshotStack.head?.getD 0 :: w.snapshotStack }
          exact Or.inr ⟨e, by simp [refresh_matview_datafill, henv, hint, hplan, hfail, he]⟩
        | false =>
          exact Or.inl (refresh_matview_datafill_spec dest q env w t q1 henv hint hplan hfail h1 h2)
  · exact Or.inr ⟨.unexpectedRewriteResult, by simp [refresh_matview_datafill, henv]⟩

end Matview

namespace Matview

theorem internal_not_user (e : RefreshError) (h : e.isInternal = true) :
    e.isUserError = false := by
  cases e <;> simp_all [RefreshError.isInternal, RefreshError.isUserError]

theorem refresh_matview_datafill_trace_noswap (dest : DR_transientrel) (q : Query)
    (env : Env) (w : World) :
    ∀ e ∈ (refresh_matview_datafill dest q env w).1, isSwapEvent e = false := by
  intro e he
  simp only [refresh_matview_datafill] at he
  split at he
  · split at he
    · simp only [List.mem_singleton] at he
      subst he; rfl
    · split at he
      · simp only [List.mem_cons, List.not_mem_nil, or_false] at he
        casesm* _ ∨ _ <;> simp_all [isSwapEvent]
      · split at he <;>
          (simp only [List.mem_cons, List.mem_append, List.not_mem_nil, or_false,
             List.mem_singleton] at he
           casesm* _ ∨ _ <;>
             first
               | exact (sink_event_classify _
                   (executorRun_trace_sink _ _ _ _ _ _ (by assumption))).1
               | simp_all [isSwapEvent])
  · simp at he

end Matview

namespace Matview

/-- Claim C4: under the precondition that the storage object is unpopulated, the
populated-state transition writes exactly one initialized, checksummed, empty page
as the first page of the object; when the object needs WAL the page is logged
before it is written; the write is followed by a synchronous flush and by the
invalidation of the cached relation entry; afterwards the object is populated and
logically empty. -/
theorem claim4_populated_transition (r : Rel) (h : r.ispopulated = false) :
    (SetMatViewToPopulated r).1 =
      (if r.needsWAL then [Event.logNewPage r.filenode 0] else []) ++
        [Event.smgrextend r.filenode 0
           { initialized := true, checksummed := true, rows := [] },
         Event.smgrimmedsync r.filenode,
         Event.relcacheInvalidate r.oid] ∧
    (SetMatViewToPopulated r).2.pages =
      [{ initialized := true, checksummed := true, rows := [] }] ∧
    (SetMatViewToPopulated r).2.ispopulated = true ∧
    (SetMatViewToPopulated r).2.contents = [] := by
  have hp : r.pages = [] := by
    simpa [Rel.ispopulated, List.isEmpty_iff] using h
  refine ⟨SetMatViewToPopulated_fst r, ?_, SetMatViewToPopulated_ispopulated r, ?_⟩
  · rw [SetMatViewToPopulated_snd]
    simp [hp]
  · rw [SetMatViewToPopulated_contents]
    simp [Rel.contents, hp]

/-- Witness for C4 at a concrete unpopulated relation. -/
theorem claim4_witness :
    unpopRel.ispopulated = false ∧
    ((SetMatViewToPopulated unpopRel).1 =
      (if unpopRel.needsWAL then [Event.logNewPage unpopRel.filenode 0] else []) ++
        [Event.smgrextend unpopRel.filenode 0
           { initialized := true, checksummed := true, rows := [] },
         Event.smgrimmedsync unpopRel.filenode,
         Event.relcacheInvalidate unpopRel.oid] ∧
     (SetMatViewToPopulated unpopRel).2.pages =
       [{ initialized := true, checksummed := true, rows := [] }] ∧
     (SetMatViewToPopulated unpopRel).2.ispopulated = true ∧
     (SetMatViewToPopulated unpopRel).2.contents = []) :=
  ⟨by decide, claim4_populated_transition unpopRel (by decide)⟩

end Matview

namespace Matview

/-- Claim C7: refreshing a view whose metadata has zero rules, more than one rule,
a first rule that is not a SELECT INSTEAD rule, or a rule whose action list does
not contain exactly one action, fails with an internal-consistency fault (not a
user error), nothing is executed (empty trace) and the world is unchanged, so no
rule or action is silently picked. -/
theorem claim7_rule_shape (stmt : RefreshMatViewStmt) (env : Env) (w : World)
    (hres : env.resolveOk = true) (hkind : w.view.relkind = RelKind.matview)
    (hbad : (w.view.relhasrules = false ∨ w.view.rules = []) ∨
            1 < w.view.rules.length ∨
            (∃ rule rest, w.view.rules = rule :: rest ∧
               (rule.event ≠ CmdType.select ∨ rule.isInstead = false)) ∨
            (∃ rule rest, w.view.rules = rule :: rest ∧ rule.actions.length ≠ 1)) :
    ∃ e, (ExecRefreshMatView stmt env w).error = some e ∧
      e.isInternal = true ∧ e.isUserError = false ∧
      (ExecRefreshMatView stmt env w).trace = [] ∧
      (ExecRefreshMatView stmt env w).world = w := by
  by_cases c1 : w.view.relhasrules = false ∨ w.view.rules = []
  · refine ⟨.missingRewriteInfo, ?_, rfl, rfl, ?_, ?_⟩ <;>
      simp [ExecRefreshMatView, hres, hkind, c1]
  · by_cases c2 : w.view.rules.length > 1
    · refine ⟨.tooManyRules, ?_, rfl, rfl, ?_, ?_⟩ <;>
        simp [ExecRefreshMatView, hres, hkind, c1, c2]
    · have hlen : w.view.rules.length = 1 := by
        push_neg at c1 c2
        have hpos : 0 < w.view.rules.length := List.length_pos.mpr c1.2
        omega
      rcases hrules : w.view.rules with _ | ⟨rule, rest⟩
      · rw [hrules] at hlen; simp at hlen
      · have hrest : rest = [] := by
          rw [hrules] at hlen
          simpa using hlen
        subst hrest
        obtain ⟨c1a, c1b⟩ := not_or.mp c1
        by_cases c3 : rule.event ≠ CmdType.select ∨ rule.isInstead = false
        · refine ⟨.notSelectInsteadRule, ?_, rfl, rfl, ?_, ?_⟩ <;>
            simp [ExecRefreshMatView, hres, hkind, c1a, c1b, c2, hrules, c3]
        · by_cases c4 : rule.actions.length ≠ 1
          · refine ⟨.notSingleAction, ?_, rfl, rfl, ?_, ?_⟩ <;>
              simp [ExecRefreshMatView, hres, hkind, c1a, c1b, c2, hrules, c3, c4]
          · exfalso
            push_neg at c1 c3 c4
            rcases hbad with (hb | hb) | hb | ⟨r2, rest2, hr2, hb⟩ | ⟨r2, rest2, hr2, hb⟩
            · exact absurd hb c1.1
            · rw [hb] at hlen; simp at hlen
            · omega
            · rw [hrules] at hr2
              injection hr2 with h1 h2
              subst h1
              rcases hb with hb | hb
              · exact hb c3.1
              · rw [hb] at c3; simp at c3
            · rw [hrules] at hr2
              injection hr2 with h1 h2
              subst h1
              exact hb c4

/-- Witness for C7 at a concrete view whose rule list is empty. -/
theorem claim7_witness :
    (envInUse.resolveOk = true ∧ wBadRules.view.relkind = RelKind.matview ∧
       wBadRules.view.rules = []) ∧
    ∃ e, (ExecRefreshMatView { skipData := false } envInUse wBadRules).error = some e ∧
      e.isInternal = true ∧ e.isUserError = false ∧
      (ExecRefreshMatView { skipData := false } envInUse wBadRules).trace = [] ∧
      (ExecRefreshMatView { skipData := false } envInUse wBadRules).world = wBadRules :=
  ⟨⟨rfl, rfl, rfl⟩,
   claim7_rule_shape { skipData := false } envInUse wBadRules rfl rfl
     (Or.inl (Or.inr rfl))⟩

end Matview

namespace Matview

/-- Claim C8: refreshing a well-formed materialized view that is in active use in
the current transaction fails with the concurrency error raised by
CheckTableNotInUse, the world is unchanged (in particular no transient relation
exists), and the trace contains no transient-heap creation: the failure happens
before any transient storage is created. -/
theorem claim8_active_use_guard (stmt : RefreshMatViewStmt) (env : Env) (w : World)
    (rule : RewriteRule)
    (hres : env.resolveOk = true) (hkind : w.view.relkind = RelKind.matview)
    (hhr : w.view.relhasrules = true) (hrules : w.view.rules = [rule])
    (hev : rule.event = CmdType.select) (hins : rule.isInstead = true)
    (hact : rule.actions.length = 1)
    (hinuse : env.tableInUse = true) (htr : w.transient = none) :
    (ExecRefreshMatView stmt env w).error = some .tableInUse ∧
    RefreshError.isConcurrencyError .tableInUse = true ∧
    (ExecRefreshMatView stmt env w).world = w ∧
    (ExecRefreshMatView stmt env w).world.transient = none ∧
    (ExecRefreshMatView stmt env w).trace = [Event.checkTableNotInUse w.view.oid] ∧
    ∀ e ∈ (ExecRefreshMatView stmt env w).trace, isMakeNewHeapEvent e = false := by
  rcases hacts : rule.actions with _ | ⟨a, arest⟩
  · rw [hacts] at hact; simp at hact
  · have harest : arest = [] := by
      rw [hacts] at hact
      simpa using hact
    subst harest
    have hrun : ExecRefreshMatView stmt env w =
        { trace := [Event.checkTableNotInUse w.view.oid], world := w,
          error := some .tableInUse } := by
      simp [ExecRefreshMatView, hres, hkind, hhr, hrules, hev, hins, hact, hacts, hinuse]
    refine ⟨by rw [hrun], rfl, by rw [hrun], ?_, by rw [hrun], ?_⟩
    · rw [hrun]
      exact htr
    · rw [hrun]
      intro e he
      simp only [List.mem_singleton] at he
      subst he
      rfl

/-- Witness for C8 at a concrete in-use view. -/
theorem claim8_witness :
    (envInUse.resolveOk = true ∧ w0.view.relkind = RelKind.matview ∧
       w0.view.relhasrules = true ∧ w0.view.rules = [rule0] ∧
       rule0.event = CmdType.select ∧ rule0.isInstead = true ∧
       rule0.actions.length = 1 ∧ envInUse.tableInUse = true ∧ w0.transient = none) ∧
    ((ExecRefreshMatView { skipData := false } envInUse w0).error = some .tableInUse ∧
     RefreshError.isConcurrencyError .tableInUse = true ∧
     (ExecRefreshMatView { skipData := false } envInUse w0).world = w0 ∧
     (ExecRefreshMatView { skipData := false } envInUse w0).world.transient = none ∧
     (ExecRefreshMatView { skipData := false } envInUse w0).trace =
       [Event.checkTableNotInUse w0.view.oid] ∧
     ∀ e ∈ (ExecRefreshMatView { skipData := false } envInUse w0).trace,
       isMakeNewHeapEvent e = false) :=
  ⟨⟨rfl, rfl, rfl, rfl, rfl, rfl, rfl, rfl, rfl⟩,
   claim8_active_use_guard { skipData := false } envInUse w0 rule0
     rfl rfl rfl rfl rfl rfl rfl rfl rfl⟩

end Matview

namespace Matview

theorem executorRun_countP_plan (rows : List Row) (fails xlog : Bool)
    (dest : DR_transientrel) (w : World) :
    (executorRun rows fails xlog dest w).1.countP isPlanEvent = 0 := by
  rw [List.countP_eq_zero]
  intro e he
  have h := (sink_event_classify e (executorRun_trace_sink rows fails xlog dest w e he)).2.2.2.1
  simp [h]

/-- Claim C9: the datafill re-rewrites the defining query; when the rewrite list
does not have exactly one element the refresh fails with the internal error
raised by the unexpected-rewrite-result elog, before any planning or execution
(empty trace, world unchanged); when the rewrite produces exactly one query, any
planner invocation in the trace plans exactly that single query (with its first
two range table entries flagged), and the planner is invoked at most once. -/
theorem claim9_rewrite_cardinality (dest : DR_transientrel) (q : Query) (env : Env)
    (w : World) :
    (env.rewritten.length ≠ 1 →
       (refresh_matview_datafill dest q env w).2.2.2 = some .unexpectedRewriteResult ∧
       RefreshError.isInternal .unexpectedRewriteResult = true ∧
       (refresh_matview_datafill dest q env w).1 = [] ∧
       (refresh_matview_datafill dest q env w).2.1 = w) ∧
    (∀ q1, env.rewritten = [q1] →
       (∀ e ∈ (refresh_matview_datafill dest q env w).1, isPlanEvent e = true →
          e = Event.planQuery { q1 with rtable := flagFirstTwo q1.rtable }) ∧
       (refresh_matview_datafill dest q env w).1.countP isPlanEvent ≤ 1) := by
  constructor
  · intro hne
    rcases henv : env.rewritten with _ | ⟨q1, _ | ⟨q2, rest⟩⟩
    · exact ⟨by simp [refresh_matview_datafill, henv], rfl,
        by simp [refresh_matview_datafill, henv], by simp [refresh_matview_datafill, henv]⟩
    · rw [henv] at hne; simp at hne
    · exact ⟨by simp [refresh_matview_datafill, henv], rfl,
        by simp [refresh_matview_datafill, henv], by simp [refresh_matview_datafill, henv]⟩
  · intro q1 hrw
    constructor
    · intro e he hp
      simp only [refresh_matview_datafill, hrw] at he
      split at he
      · simp only [List.mem_singleton] at he
        subst he; simp [isPlanEvent] at hp
      · split at he
        · simp only [List.mem_cons, List.not_mem_nil, or_false] at he
          rcases he with he | he
          · subst he; simp [isPlanEvent] at hp
          · subst he; rfl
        · split at he <;>
            (simp only [List.mem_cons, List.mem_append, List.not_mem_nil, or_false,
               List.mem_singleton] at he
             casesm* _ ∨ _ <;>
               first
                 | (exfalso
                    have hs := (sink_event_classify _
                      (executorRun_trace_sink _ _ _ _ _ _ (by assumption))).2.2.2.1
                    simp_all)
                 | simp_all [isPlanEvent])
    · simp only [refresh_matview_datafill, hrw]
      split
      · simp [isPlanEvent]
      · split
        · simp [List.countP_cons, isPlanEvent]
        · split <;>
            simp [List.countP_cons, List.countP_append, isPlanEvent,
              executorRun_countP_plan]

/-- Witness for C9: a rewrite returning two queries makes the datafill fail with
the internal unexpected-rewrite-result error. -/
theorem claim9_witness :
    (({ env0 with rewritten := [q0, q0] } : Env).rewritten.length ≠ 1 ∧
       env0.rewritten = [q0]) ∧
    ((refresh_matview_datafill (CreateTransientRelDestReceiver 200) q0
        { env0 with rewritten := [q0, q0] } w0).2.2.2 =
          some .unexpectedRewriteResult ∧
     RefreshError.isInternal .unexpectedRewriteResult = true ∧
     (refresh_matview_datafill (CreateTransientRelDestReceiver 200) q0
        { env0 with rewritten := [q0, q0] } w0).1 = [] ∧
     (refresh_matview_datafill (CreateTransientRelDestReceiver 200) q0
        { env0 with rewritten := [q0, q0] } w0).2.1 = w0) ∧
    (refresh_matview_datafill (CreateTransientRelDestReceiver 200) q0 env0 wT).1.countP
      isPlanEvent ≤ 1 :=
  ⟨⟨by decide, rfl⟩,
   (claim9_rewrite_cardinality (CreateTransientRelDestReceiver 200) q0
      { env0 with rewritten := [q0, q0] } w0).1 (by decide),
   ((claim9_rewrite_cardinality (CreateTransientRelDestReceiver 200) q0 env0 wT).2
      q0 rfl).2⟩

end Matview

namespace Matview

/-- Claim C2: for a data-filling refresh, the sink startup succeeds on the
transient relation and selects the skip-WAL insert option exactly when
XLogIsNeeded is false; after any number of received rows, shutdown emits exactly
a bulk-insert-buffer release followed, exactly when WAL was skipped at open time,
by a synchronous heap_sync flush of the transient relation (and by nothing when
WAL was not skipped). -/
theorem claim2_close_durability (xlog : Bool) (w : World) (t : Rel) (toid : Nat)
    (rows : List Row) (h : w.heapOpen toid = some t) :
    (transientrel_startup (CreateTransientRelDestReceiver toid) xlog w).2.2.2 = none ∧
    (((transientrel_startup (CreateTransientRelDestReceiver toid) xlog w).2.2.1.hi_options
        &&& HEAP_INSERT_SKIP_WAL ≠ 0) ↔ xlog = false) ∧
    (transientrel_shutdown
       (transientrel_startup (CreateTransientRelDestReceiver toid) xlog w).2.2.1
       (receiveAll rows
          (transientrel_startup (CreateTransientRelDestReceiver toid) xlog w).2.2.1
          (transientrel_startup (CreateTransientRelDestReceiver toid) xlog w).2.1).2).1 =
      Event.freeBulkInsertState ::
        (if xlog = false then [Event.heapSync t.filenode] else []) := by
  have hsu := transientrel_startup_spec (CreateTransientRelDestReceiver toid) xlog w t h
  have hra := receiveAll_spec rows
    { transientoid := (CreateTransientRelDestReceiver toid).transientoid,
      transientrel := some t.oid,
      output_cid := w.commandIdCounter,
      hi_options :=
        if !xlog then (HEAP_INSERT_SKIP_FSM ||| HEAP_INSERT_FROZEN) ||| HEAP_INSERT_SKIP_WAL
        else HEAP_INSERT_SKIP_FSM ||| HEAP_INSERT_FROZEN }
    { w with transient := some (SetMatViewToPopulated t).2 }
    (SetMatViewToPopulated t).2 rfl rfl
  have hsh := transientrel_shutdown_spec
    { transientoid := (CreateTransientRelDestReceiver toid).transientoid,
      transientrel := some t.oid,
      output_cid := w.commandIdCounter,
      hi_options :=
        if !xlog then (HEAP_INSERT_SKIP_FSM ||| HEAP_INSERT_FROZEN) ||| HEAP_INSERT_SKIP_WAL
        else HEAP_INSERT_SKIP_FSM ||| HEAP_INSERT_FROZEN }
    { w with transient := some (((SetMatViewToPopulated t).2).insertRows rows) }
    (((SetMatViewToPopulated t).2).insertRows rows)
    (by rw [insertRows_oid]; rfl) rfl
  refine ⟨by rw [hsu], ?_, ?_⟩
  · rw [hsu]
    cases xlog <;>
      simp [HEAP_INSERT_SKIP_WAL, HEAP_INSERT_SKIP_FSM, HEAP_INSERT_FROZEN]
  · rw [hsu]
    show (transientrel_shutdown _ (receiveAll rows _ _).2).1 = _
    rw [hra, hsh]
    rw [insertRows_filenode]
    cases xlog <;> simp [SetMatViewToPopulated_filenode,
      HEAP_INSERT_SKIP_WAL, HEAP_INSERT_SKIP_FSM, HEAP_INSERT_FROZEN]

end Matview

namespace Matview

/-- Witness for C2 at a concrete transient relation, with one received row and
WAL skipped. -/
theorem claim2_witness :
    wT.heapOpen 1 = some unpopRel ∧
    ((transientrel_startup (CreateTransientRelDestReceiver 1) false wT).2.2.2 = none ∧
     (((transientrel_startup (CreateTransientRelDestReceiver 1) false wT).2.2.1.hi_options
         &&& HEAP_INSERT_SKIP_WAL ≠ 0) ↔ false = false) ∧
     (transientrel_shutdown
        (transientrel_startup (CreateTransientRelDestReceiver 1) false wT).2.2.1
        (receiveAll [10]
           (transientrel_startup (CreateTransientRelDestReceiver 1) false wT).2.2.1
           (transientrel_startup (CreateTransientRelDestReceiver 1) false wT).2.1).2).1 =
       Event.freeBulkInsertState ::
         (if false = false then [Event.heapSync unpopRel.filenode] else [])) :=
  ⟨by decide, claim2_close_durability false wT unpopRel 1 [10] (by decide)⟩

/-- Claim C3: during a data-filling run, the executor-driven sink trace splits
into an open-phase prefix and a remainder: the prefix performs the
populated-state transition page write on the transient storage exactly once and
contains no row insert, and the remainder performs no further transition write —
so the transition happens exactly once, during the open phase, before any row is
written, and rows are only inserted into storage that has undergone it.
Moreover, after the open phase the transient relation is populated. -/
theorem heapInsert_not_transition (e : Event) (h : isHeapInsertEvent e = true)
    (fn : Nat) : isTransitionWrite fn e = false := by
  cases e <;> simp_all [isHeapInsertEvent, isTransitionWrite]

theorem receiveAll_no_transition (rows : List Row) (m : DR_transientrel) (w : World)
    (fn : Nat) : ∀ e ∈ (receiveAll rows m w).1, isTransitionWrite fn e = false :=
  fun e he => heapInsert_not_transition e (receiveAll_trace rows m w e he) fn

theorem receiveAll_countP_transition (rows : List Row) (m : DR_transientrel) (w : World)
    (fn : Nat) : (receiveAll rows m w).1.countP (isTransitionWrite fn) = 0 := by
  rw [List.countP_eq_zero]
  intro e he
  simp [receiveAll_no_transition rows m w fn e he]

theorem shutdown_countP_transition (m : DR_transientrel) (w : World) (fn : Nat) :
    (transientrel_shutdown m w).1.countP (isTransitionWrite fn) = 0 := by
  rw [List.countP_eq_zero]
  intro e he
  simp [(transientrel_shutdown_trace_classify m w e he).2.1 fn]

theorem claim3_populated_before_rows (rows : List Row) (fails xlog : Bool)
    (w : World) (t : Rel) (toid : Nat) (h : w.heapOpen toid = some t) :
    (∃ pre post,
      (executorRun rows fails xlog (CreateTransientRelDestReceiver toid) w).1 =
        pre ++ post ∧
      pre.countP (isTransitionWrite t.filenode) = 1 ∧
      (∀ e ∈ pre, isHeapInsertEvent e = false) ∧
      (∀ e ∈ post, isTransitionWrite t.filenode e = false) ∧
      (executorRun rows fails xlog (CreateTransientRelDestReceiver toid) w).1.countP
        (isTransitionWrite t.filenode) = 1) ∧
    ∃ t2, (transientrel_startup (CreateTransientRelDestReceiver toid) xlog w).2.1.transient =
        some t2 ∧ t2.ispopulated = true := by
  have hsu := transientrel_startup_spec (CreateTransientRelDestReceiver toid) xlog w t h
  have hpre1 : (Event.getBulkInsertState :: (SetMatViewToPopulated t).1).countP
      (isTransitionWrite t.filenode) = 1 := by
    rw [List.countP_cons]
    simp [isTransitionWrite, SetMatViewToPopulated_trace_countP]
  have hpre2 : ∀ e ∈ Event.getBulkInsertState :: (SetMatViewToPopulated t).1,
      isHeapInsertEvent e = false := by
    intro e he
    rcases List.mem_cons.mp he with h1 | h1
    · subst h1; rfl
    · exact SetMatViewToPopulated_trace_noInsert t e h1
  constructor
  · simp only [executorRun, hsu]
    cases fails with
    | true =>
      simp only [eq_self_iff_true, if_true]
      refine ⟨_, _, rfl, hpre1, hpre2, receiveAll_no_transition _ _ _ _, ?_⟩
      rw [List.countP_append, hpre1, receiveAll_countP_transition]
    | false =>
      simp only [Bool.false_eq_true, if_false]
      refine ⟨_, _, List.append_assoc _ _ _, hpre1, hpre2, ?_, ?_⟩
      · intro e he
        rcases List.mem_append.mp he with h1 | h1
        · exact receiveAll_no_transition _ _ _ _ e h1
        · exact (transientrel_shutdown_trace_classify _ _ e h1).2.1 t.filenode
      · rw [List.countP_append, List.countP_append, hpre1,
          receiveAll_countP_transition, shutdown_countP_transition]
  · refine ⟨(SetMatViewToPopulated t).2, ?_, SetMatViewToPopulated_ispopulated t⟩
    rw [hsu]

/-- Witness for C3 at a concrete transient relation and a two-row run. -/
theorem claim3_witness :
    wT.heapOpen 1 = some unpopRel ∧
    ((∃ pre post,
       (executorRun [10, 20] false false (CreateTransientRelDestReceiver 1) wT).1 =
         pre ++ post ∧
       pre.countP (isTransitionWrite unpopRel.filenode) = 1 ∧
       (∀ e ∈ pre, isHeapInsertEvent e = false) ∧
       (∀ e ∈ post, isTransitionWrite unpopRel.filenode e = false) ∧
       (executorRun [10, 20] false false (CreateTransientRelDestReceiver 1) wT).1.countP
         (isTransitionWrite unpopRel.filenode) = 1) ∧
     ∃ t2, (transientrel_startup (CreateTransientRelDestReceiver 1) false wT).2.1.transient =
         some t2 ∧ t2.ispopulated = true) :=
  ⟨by decide, claim3_populated_before_rows [10, 20] false false wT unpopRel 1 (by decide)⟩

end Matview

namespace Matview

/-- Counterexample for C5: on a concrete data-filling refresh, the planner event
occurs at index 1 of the datafill trace and the snapshot push only at index 2, so
it is false that the snapshot/command-id context is pushed before the defining
query is planned. -/
theorem claim5_counterexample :
    ¬ ∃ i j,
      (refresh_matview_datafill (CreateTransientRelDestReceiver 1) q0 env0 wT).1.findIdx?
          isPushSnapshotEvent = some i ∧
      (refresh_matview_datafill (CreateTransientRelDestReceiver 1) q0 env0 wT).1.findIdx?
          isPlanEvent = some j ∧
      i < j := by
  rintro ⟨i, j, hi, hj, hij⟩
  have h1 : (refresh_matview_datafill (CreateTransientRelDestReceiver 1) q0 env0 wT).1.findIdx?
      isPushSnapshotEvent = some 2 := by decide
  have h2 : (refresh_matview_datafill (CreateTransientRelDestReceiver 1) q0 env0 wT).1.findIdx?
      isPlanEvent = some 1 := by decide
  rw [h1] at hi
  rw [h2] at hj
  injection hi with hi
  injection hj with hj
  omega

/-- Claim C5 (amended): for every data-filling refresh that completes
successfully, the copied snapshot with updated command id is pushed after the
defining query is planned and before execution begins, remains active throughout
execution (the executor segment contains no snapshot push or pop), and is popped
immediately after execution completes (the pop is the final event); the
active-snapshot stack afterwards equals the stack before. -/
theorem claim5_snapshot_order (dest : DR_transientrel) (q : Query) (env : Env)
    (w : World) (hok : (refresh_matview_datafill dest q env w).2.2.2 = none) :
    ∃ q2 evExec,
      (refresh_matview_datafill dest q env w).1 =
        Event.checkForInterrupts :: Event.planQuery q2 ::
          Event.pushSnapshot (w.snapshotStack.headD 0) ::
            Event.updateSnapshotCommandId ::
              Event.executorRunEv :: (evExec ++ [Event.popSnapshot]) ∧
      (∀ e ∈ evExec, isPushSnapshotEvent e = false ∧ isPopSnapshotEvent e = false) ∧
      (refresh_matview_datafill dest q env w).2.1.snapshotStack = w.snapshotStack := by
  rcases henv : env.rewritten with _ | ⟨q1, _ | ⟨q2, rest⟩⟩
  · simp [refresh_matview_datafill, henv] at hok
  · cases hint : env.interruptPending with
    | true => simp [refresh_matview_datafill, henv, hint] at hok
    | false =>
      cases hplan : env.planOk with
      | false => simp [refresh_matview_datafill, henv, hint, hplan] at hok
      | true =>
        cases hex : (executorRun env.execRows env.execFails env.xlogIsNeeded dest
            { w with snapshotStack := w.snapshotStack.head?.getD 0 :: w.snapshotStack }).2.2.2 with
        | some e => simp [refresh_matview_datafill, henv, hint, hplan, hex] at hok
        | none =>
          refine ⟨{ q1 with rtable := flagFirstTwo q1.rtable },
            (executorRun env.execRows env.execFails env.xlogIsNeeded dest
              { w with snapshotStack :=
                  w.snapshotStack.head?.getD 0 :: w.snapshotStack }).1, ?_, ?_, ?_⟩
          · simp [refresh_matview_datafill, henv, hint, hplan, hex]
          · intro e he
            have hs := sink_event_classify e
              (executorRun_trace_sink env.execRows env.execFails env.xlogIsNeeded dest
                { w with snapshotStack :=
                    w.snapshotStack.head?.getD 0 :: w.snapshotStack } e he)
            exact ⟨hs.2.1, hs.2.2.1⟩
          · simp [refresh_matview_datafill, henv, hint, hplan, hex, executorRun_stack]
  · simp [refresh_matview_datafill, henv] at hok

/-- Witness for the amended C5 at a concrete successful datafill. -/
theorem claim5_witness :
    (refresh_matview_datafill (CreateTransientRelDestReceiver 1) q0 env0 wT).2.2.2 = none ∧
    ∃ q2 evExec,
      (refresh_matview_datafill (CreateTransientRelDestReceiver 1) q0 env0 wT).1 =
        Event.checkForInterrupts :: Event.planQuery q2 ::
          Event.pushSnapshot (wT.snapshotStack.headD 0) ::
            Event.updateSnapshotCommandId ::
              Event.executorRunEv :: (evExec ++ [Event.popSnapshot]) ∧
      (∀ e ∈ evExec, isPushSnapshotEvent e = false ∧ isPopSnapshotEvent e = false) ∧
      (refresh_matview_datafill (CreateTransientRelDestReceiver 1) q0 env0 wT).2.1.snapshotStack =
        wT.snapshotStack :=
  ⟨by decide,
   claim5_snapshot_order (CreateTransientRelDestReceiver 1) q0 env0 wT (by decide)⟩

end Matview

namespace Matview

/-- Claim C10: a no-data refresh performs no cooperative-cancellation check and
no snapshot push or pop (those live only in the skipped datafill routine), and
the active-snapshot stack is identical before and after. -/
theorem claim10_nodata_frame (stmt : RefreshMatViewStmt) (env : Env) (w : World)
    (hskip : stmt.skipData = true) :
    (∀ e ∈ (ExecRefreshMatView stmt env w).trace,
       isInterruptCheckEvent e = false ∧ isPushSnapshotEvent e = false ∧
       isPopSnapshotEvent e = false) ∧
    (ExecRefreshMatView stmt env w).world.snapshotStack = w.snapshotStack := by
  constructor
  · intro e he
    simp only [ExecRefreshMatView, hskip, eq_self_iff_true, if_true] at he
    repeat' split at he
    all_goals
      first
        | exact absurd he (List.not_mem_nil e)
        | (simp only [List.mem_cons, List.mem_append, List.not_mem_nil, or_false,
             List.mem_singleton] at he
           (try casesm* _ ∨ _) <;>
             simp_all [isInterruptCheckEvent, isPushSnapshotEvent, isPopSnapshotEvent])
  · simp only [ExecRefreshMatView, hskip, eq_self_iff_true, if_true]
    repeat' split
    all_goals first | rfl | simp [finish_heap_swap]

/-- Witness for C10 at a concrete no-data refresh. -/
theorem claim10_witness :
    ({ skipData := true } : RefreshMatViewStmt).skipData = true ∧
    ((∀ e ∈ (ExecRefreshMatView { skipData := true } env0 w0).trace,
        isInterruptCheckEvent e = false ∧ isPushSnapshotEvent e = false ∧
        isPopSnapshotEvent e = false) ∧
     (ExecRefreshMatView { skipData := true } env0 w0).world.snapshotStack =
       w0.snapshotStack) :=
  ⟨rfl, claim10_nodata_frame { skipData := true } env0 w0 rfl⟩

theorem ExecRefreshMatView_skipData (env : Env) (w : World) (rule : RewriteRule)
    (hres : env.resolveOk = true) (hkind : w.view.relkind = RelKind.matview)
    (hhr : w.view.relhasrules = true) (hrules : w.view.rules = [rule])
    (hev : rule.event = CmdType.select) (hins : rule.isInstead = true)
    (hact : rule.actions.length = 1) (hinuse : env.tableInUse = false) :
    ExecRefreshMatView { skipData := true } env w =
      { trace := [Event.checkTableNotInUse w.view.oid,
                  Event.makeNewHeap w.nextOid w.nextFilenode w.view.reltablespace,
                  Event.finishHeapSwap w.view.oid,
                  Event.relcacheInvalidate w.view.oid],
        world := { w with
            view := { w.view with filenode := w.nextFilenode, pages := [] },
            transient := none,
            nextOid := w.nextOid + 1,
            nextFilenode := w.nextFilenode + 1 },
        error := none } := by
  rcases hacts : rule.actions with _ | ⟨a, arest⟩
  · rw [hacts] at hact; simp at hact
  · have harest : arest = [] := by
      rw [hacts] at hact
      simpa using hact
    subst harest
    simp [ExecRefreshMatView, hres, hkind, hhr, hrules, hev, hins, hacts, hinuse,
      finish_heap_swap]

end Matview

namespace Matview

/-- Counterexample for C6: on a concrete view, a no-data refresh leaves the view
unpopulated, and so does a second no-data refresh; the claim that both refreshes
yield a populated view is false (a no-data refresh never runs the populated-state
transition, so the swapped-in zero-page storage is not scannable). -/
theorem claim6_counterexample :
    (ExecRefreshMatView { skipData := true } env0 w0).world.view.ispopulated = false ∧
    (ExecRefreshMatView { skipData := true } env0
       (ExecRefreshMatView { skipData := true } env0 w0).world).world.view.ispopulated =
      false := by
  decide

/-- Claim C6 (amended): refreshing a well-formed view with no-data twice in a row
succeeds both times and yields an empty, UNPOPULATED view both times, with a new
underlying storage identity each time (the three storage identities are pairwise
distinct), while the view's own catalog identity is unchanged across both
refreshes. -/
theorem claim6_nodata_idempotence (env1 env2 : Env) (w : World) (rule : RewriteRule)
    (hres1 : env1.resolveOk = true) (hin1 : env1.tableInUse = false)
    (hres2 : env2.resolveOk = true) (hin2 : env2.tableInUse = false)
    (hkind : w.view.relkind = RelKind.matview) (hhr : w.view.relhasrules = true)
    (hrules : w.view.rules = [rule]) (hev : rule.event = CmdType.select)
    (hins : rule.isInstead = true) (hact : rule.actions.length = 1)
    (hfn : w.view.filenode < w.nextFilenode) :
    (ExecRefreshMatView { skipData := true } env1 w).error = none ∧
    (ExecRefreshMatView { skipData := true } env2
       (ExecRefreshMatView { skipData := true } env1 w).world).error = none ∧
    (ExecRefreshMatView { skipData := true } env1 w).world.view.contents = [] ∧
    (ExecRefreshMatView { skipData := true } env1 w).world.view.ispopulated = false ∧
    (ExecRefreshMatView { skipData := true } env2
       (ExecRefreshMatView { skipData := true } env1 w).world).world.view.contents = [] ∧
    (ExecRefreshMatView { skipData := true } env2
       (ExecRefreshMatView { skipData := true } env1 w).world).world.view.ispopulated =
      false ∧
    (ExecRefreshMatView { skipData := true } env1 w).world.view.oid = w.view.oid ∧
    (ExecRefreshMatView { skipData := true } env2
       (ExecRefreshMatView { skipData := true } env1 w).world).world.view.oid = w.view.oid ∧
    (ExecRefreshMatView { skipData := true } env1 w).world.view.filenode ≠
      w.view.filenode ∧
    (ExecRefreshMatView { skipData := true } env2
       (ExecRefreshMatView { skipData := true } env1 w).world).world.view.filenode ≠
      (ExecRefreshMatView { skipData := true } env1 w).world.view.filenode ∧
    (ExecRefreshMatView { skipData := true } env2
       (ExecRefreshMatView { skipData := true } env1 w).world).world.view.filenode ≠
      w.view.filenode := by
  have h1 := ExecRefreshMatView_skipData env1 w rule hres1 hkind hhr hrules hev hins hact hin1
  have h2 := ExecRefreshMatView_skipData env2
    { w with
        view := { w.view with filenode := w.nextFilenode, pages := [] },
        transient := none,
        nextOid := w.nextOid + 1,
        nextFilenode := w.nextFilenode + 1 }
    rule hres2 hkind hhr hrules hev hins hact hin2
  rw [h1, h2]
  refine ⟨rfl, rfl, ?_, rfl, ?_, rfl, rfl, rfl, ?_, ?_, ?_⟩
  · simp [Rel.contents]
  · simp [Rel.contents]
  · show w.nextFilenode ≠ w.view.filenode
    omega
  · show w.nextFilenode + 1 ≠ w.nextFilenode
    omega
  · show w.nextFilenode + 1 ≠ w.view.filenode
    omega

/-- Witness for the amended C6 at a concrete view. -/
theorem claim6_witness :
    (env0.resolveOk = true ∧ env0.tableInUse = false ∧
     w0.view.relkind = RelKind.matview ∧ w0.view.relhasrules = true ∧
     w0.view.rules = [rule0] ∧ rule0.event = CmdType.select ∧
     rule0.isInstead = true ∧ rule0.actions.length = 1 ∧
     w0.view.filenode < w0.nextFilenode) ∧
    ((ExecRefreshMatView { skipData := true } env0 w0).error = none ∧
     (ExecRefreshMatView { skipData := true } env0
        (ExecRefreshMatView { skipData := true } env0 w0).world).error = none ∧
     (ExecRefreshMatView { skipData := true } env0 w0).world.view.contents = [] ∧
     (ExecRefreshMatView { skipData := true } env0 w0).world.view.ispopulated = false ∧
     (ExecRefreshMatView { skipData := true } env0
        (ExecRefreshMatView { skipData := true } env0 w0).world).world.view.contents = [] ∧
     (ExecRefreshMatView { skipData := true } env0
        (ExecRefreshMatView { skipData := true } env0 w0).world).world.view.ispopulated =
       false ∧
     (ExecRefreshMatView { skipData := true } env0 w0).world.view.oid = w0.view.oid ∧
     (ExecRefreshMatView { skipData := true } env0
        (ExecRefreshMatView { skipData := true } env0 w0).world).world.view.oid =
       w0.view.oid ∧
     (ExecRefreshMatView { skipData := true } env0 w0).world.view.filenode ≠
       w0.view.filenode ∧
     (ExecRefreshMatView { skipData := true } env0
        (ExecRefreshMatView { skipData := true } env0 w0).world).world.view.filenode ≠
       (ExecRefreshMatView { skipData := true } env0 w0).world.view.filenode ∧
     (ExecRefreshMatView { skipData := true } env0
        (ExecRefreshMatView { skipData := true } env0 w0).world).world.view.filenode ≠
       w0.view.filenode) :=
  ⟨⟨rfl, rfl, rfl, rfl, rfl, rfl, rfl, rfl, by decide⟩,
   claim6_nodata_idempotence env0 env0 w0 rule0 rfl rfl rfl rfl rfl rfl rfl rfl rfl rfl
     (by decide)⟩

end Matview

namespace Matview

theorem finish_heap_swap_eq (w2 : World) (t : Rel) (oid : Nat)
    (htr : w2.transient = some t) (hoid : w2.view.oid = oid) :
    finish_heap_swap w2 oid =
      { w2 with
          view := { w2.view with filenode := t.filenode, pages := t.pages },
          transient := none } := by
  simp [finish_heap_swap, htr, hoid]

theorem ExecRefreshMatView_fill_some (stmt : RefreshMatViewStmt) (env : Env) (w : World)
    (rule : RewriteRule) (a : Query) (e1 : RefreshError)
    (hres : env.resolveOk = true) (hk : w.view.relkind = RelKind.matview)
    (c1a : ¬w.view.relhasrules = false) (hrules : w.view.rules = [rule])
    (c3 : ¬(rule.event ≠ CmdType.select ∨ rule.isInstead = false))
    (hacts : rule.actions = [a]) (cinuse : env.tableInUse = false)
    (hskip : stmt.skipData = false)
    (hf : (datafillOf env a w).2.2.2 = some e1) :
    ExecRefreshMatView stmt env w =
      { trace := Event.checkTableNotInUse w.view.oid ::
          Event.makeNewHeap w.nextOid w.nextFilenode w.view.reltablespace ::
          (datafillOf env a w).1,
        world := (datafillOf env a w).2.1,
        error := some e1 } := by
  have hf2 := hf
  simp only [datafillOf, fillWorld, transientFor] at hf2
  simp [ExecRefreshMatView, datafillOf, fillWorld, transientFor, hres, hk, c1a, hrules,
    c3, hacts, cinuse, hskip, hf2]

theorem ExecRefreshMatView_fill_none (stmt : RefreshMatViewStmt) (env : Env) (w : World)
    (rule : RewriteRule) (a : Query)
    (hres : env.resolveOk = true) (hk : w.view.relkind = RelKind.matview)
    (c1a : ¬w.view.relhasrules = false) (hrules : w.view.rules = [rule])
    (c3 : ¬(rule.event ≠ CmdType.select ∨ rule.isInstead = false))
    (hacts : rule.actions = [a]) (cinuse : env.tableInUse = false)
    (hskip : stmt.skipData = false)
    (hf : (datafillOf env a w).2.2.2 = none) :
    ExecRefreshMatView stmt env w =
      { trace := Event.checkTableNotInUse w.view.oid ::
          Event.makeNewHeap w.nextOid w.nextFilenode w.view.reltablespace ::
          ((datafillOf env a w).1 ++
            [Event.finishHeapSwap w.view.oid, Event.relcacheInvalidate w.view.oid]),
        world := finish_heap_swap (datafillOf env a w).2.1 w.view.oid,
        error := none } := by
  have hf2 := hf
  simp only [datafillOf, fillWorld, transientFor] at hf2
  simp [ExecRefreshMatView, datafillOf, fillWorld, transientFor, hres, hk, c1a, hrules,
    c3, hacts, cinuse, hskip, hf2]

/-- Claim C1: all-or-nothing refresh.  Whenever the refresh raises an error (all
errors precede the storage swap), the view's storage identity (filenode),
contents and populated state are unchanged and the trace contains no swap event;
whenever the refresh completes without error, the swap was performed, the view
keeps its catalog identity, and it is fully refreshed: its contents are exactly
the executor's result rows and it is populated (or, in no-data mode, its
contents are empty).  No partial-success state exists. -/
theorem claim1_all_or_nothing (stmt : RefreshMatViewStmt) (env : Env) (w : World) :
    (∀ e0, (ExecRefreshMatView stmt env w).error = some e0 →
       (ExecRefreshMatView stmt env w).world.view.filenode = w.view.filenode ∧
       (ExecRefreshMatView stmt env w).world.view.contents = w.view.contents ∧
       (ExecRefreshMatView stmt env w).world.view.ispopulated = w.view.ispopulated ∧
       ∀ e ∈ (ExecRefreshMatView stmt env w).trace, isSwapEvent e = false) ∧
    ((ExecRefreshMatView stmt env w).error = none →
       (ExecRefreshMatView stmt env w).world.view.oid = w.view.oid ∧
       Event.finishHeapSwap w.view.oid ∈ (ExecRefreshMatView stmt env w).trace ∧
       (stmt.skipData = true →
          (ExecRefreshMatView stmt env w).world.view.contents = []) ∧
       (stmt.skipData = false →
          (ExecRefreshMatView stmt env w).world.view.contents = env.execRows ∧
          (ExecRefreshMatView stmt env w).world.view.ispopulated = true)) := by
  have master :
      ((ExecRefreshMatView stmt env w).world.view = w.view ∧
       (ExecRefreshMatView stmt env w).error ≠ none ∧
       (∀ e ∈ (ExecRefreshMatView stmt env w).trace, isSwapEvent e = false))
    ∨ ((ExecRefreshMatView stmt env w).error = none ∧
       (ExecRefreshMatView stmt env w).world.view.oid = w.view.oid ∧
       Event.finishHeapSwap w.view.oid ∈ (ExecRefreshMatView stmt env w).trace ∧
       (stmt.skipData = true →
          (ExecRefreshMatView stmt env w).world.view.contents = []) ∧
       (stmt.skipData = false →
          (ExecRefreshMatView stmt env w).world.view.contents = env.execRows ∧
          (ExecRefreshMatView stmt env w).world.view.ispopulated = true)) := by
    by_cases hres : env.resolveOk = true
    case neg =>
      rw [Bool.not_eq_true] at hres
      have heq : ExecRefreshMatView stmt env w =
          { trace := [], world := w, error := some .resolutionFailed } := by
        simp [ExecRefreshMatView, hres]
      refine Or.inl ?_
      rw [heq]
      exact ⟨rfl, by simp, by simp⟩
    by_cases hk : w.view.relkind = RelKind.matview
    case neg =>
      have heq : ExecRefreshMatView stmt env w =
          { trace := [], world := w, error := some .notMatview } := by
        simp [ExecRefreshMatView, hres, hk]
      refine Or.inl ?_
      rw [heq]
      exact ⟨rfl, by simp, by simp⟩
    by_cases cr1 : w.view.relhasrules = false ∨ w.view.rules = []
    case pos =>
      have heq : ExecRefreshMatView stmt env w =
          { trace := [], world := w, error := some .missingRewriteInfo } := by
        simp [ExecRefreshMatView, hres, hk, cr1]
      refine Or.inl ?_
      rw [heq]
      exact ⟨rfl, by simp, by simp⟩
    by_cases cr2 : w.view.rules.length > 1
    case pos =>
      have heq : ExecRefreshMatView stmt env w =
          { trace := [], world := w, error := some .tooManyRules } := by
        simp [ExecRefreshMatView, hres, hk, cr1, cr2]
      refine Or.inl ?_
      rw [heq]
      exact ⟨rfl, by simp, by simp⟩
    have hlen : w.view.rules.length = 1 := by
      push_neg at cr1 cr2
      have hpos : 0 < w.view.rules.length := List.length_pos.mpr cr1.2
      omega
    obtain ⟨c1a, c1b⟩ := not_or.mp cr1
    rcases hrules : w.view.rules with _ | ⟨rule, rest⟩
    · rw [hrules] at hlen; simp at hlen
    have hrest : rest = [] := by
      rw [hrules] at hlen
      simpa using hlen
    subst hrest
    by_cases c3 : rule.event ≠ CmdType.select ∨ rule.isInstead = false
    case pos =>
      have heq : ExecRefreshMatView stmt env w =
          { trace := [], world := w, error := some .notSelectInsteadRule } := by
        simp [ExecRefreshMatView, hres, hk, c1a, c1b, cr2, hrules, c3]
      refine Or.inl ?_
      rw [heq]
      exact ⟨rfl, by simp, by simp⟩
    by_cases c4 : rule.actions.length ≠ 1
    case pos =>
      have heq : ExecRefreshMatView stmt env w =
          { trace := [], world := w, error := some .notSingleAction } := by
        simp [ExecRefreshMatView, hres, hk, c1a, c1b, cr2, hrules, c3, c4]
      refine Or.inl ?_
      rw [heq]
      exact ⟨rfl, by simp, by simp⟩
    push_neg at c4
    rcases hacts : rule.actions with _ | ⟨a, arest⟩
    · rw [hacts] at c4; simp at c4
    have harest : arest = [] := by
      rw [hacts] at c4
      simpa using c4
    subst harest
    by_cases cinuse : env.tableInUse = true
    case pos =>
      have heq : ExecRefreshMatView stmt env w =
          { trace := [Event.checkTableNotInUse w.view.oid], world := w,
            error := some .tableInUse } := by
        simp [ExecRefreshMatView, hres, hk, c1a, c1b, cr2, hrules, c3, hacts, cinuse]
      refine Or.inl ?_
      rw [heq]
      refine ⟨rfl, by simp, ?_⟩
      intro e he
      simp only [List.mem_singleton] at he
      subst he; rfl
    rw [Bool.not_eq_true] at cinuse
    cases hskip : stmt.skipData with
    | true =>
      have heq : ExecRefreshMatView stmt env w =
          { trace := [Event.checkTableNotInUse w.view.oid,
                      Event.makeNewHeap w.nextOid w.nextFilenode w.view.reltablespace,
                      Event.finishHeapSwap w.view.oid,
                      Event.relcacheInvalidate w.view.oid],
            world := { w with
                view := { w.view with filenode := w.nextFilenode, pages := [] },
                transient := none,
                nextOid := w.nextOid + 1,
                nextFilenode := w.nextFilenode + 1 },
            error := none } := by
        simp [ExecRefreshMatView, hres, hk, c1a, c1b, cr2, hrules, c3, hacts, cinuse,
          hskip, finish_heap_swap]
      refine Or.inr ?_
      rw [heq]
      refine ⟨rfl, rfl, by simp, ?_, ?_⟩
      · intro _
        simp [Rel.contents]
      · intro hcontra
        simp at hcontra
    | false =>
      cases hf : (datafillOf env a w).2.2.2 with
      | some e1 =>
        have heq := ExecRefreshMatView_fill_some stmt env w rule a e1 hres hk c1a hrules
          c3 hacts cinuse hskip hf
        refine Or.inl ?_
        rw [heq]
        refine ⟨?_, by simp, ?_⟩
        · exact refresh_matview_datafill_view
            (CreateTransientRelDestReceiver w.nextOid) a env (fillWorld w)
        · intro e he
          rcases List.mem_cons.mp he with h1 | h1
          · subst h1; rfl
          · rcases List.mem_cons.mp h1 with h2 | h2
            · subst h2; rfl
            · exact refresh_matview_datafill_trace_noswap
                (CreateTransientRelDestReceiver w.nextOid) a env (fillWorld w) e h2
      | none =>
        rcases refresh_matview_datafill_outcome (CreateTransientRelDestReceiver w.nextOid)
            a env (fillWorld w) (transientFor w) rfl rfl with
          ⟨hnone, htrans, hstack⟩ | ⟨e1, hsome⟩
        · have heq := ExecRefreshMatView_fill_none stmt env w rule a hres hk c1a hrules
            c3 hacts cinuse hskip hf
          have hview : (datafillOf env a w).2.1.view = w.view :=
            refresh_matview_datafill_view
              (CreateTransientRelDestReceiver w.nextOid) a env (fillWorld w)
          have htrans2 : (datafillOf env a w).2.1.transient =
              some (((SetMatViewToPopulated (transientFor w)).2).insertRows env.execRows) :=
            htrans
          have hswap := finish_heap_swap_eq ((datafillOf env a w).2.1)
            (((SetMatViewToPopulated (transientFor w)).2).insertRows env.execRows)
            w.view.oid htrans2 (by rw [hview])
          have hc : (((SetMatViewToPopulated (transientFor w)).2).insertRows
              env.execRows).contents = env.execRows := by
            rw [insertRows_contents, SetMatViewToPopulated_contents]
            simp [transientFor, Rel.contents]
          have hp : (((SetMatViewToPopulated (transientFor w)).2).insertRows
              env.execRows).ispopulated = true :=
            insertRows_ispopulated env.execRows _
              (SetMatViewToPopulated_ispopulated (transientFor w))
          refine Or.inr ?_
          rw [heq, hswap]
          refine ⟨rfl, ?_, by simp, ?_, ?_⟩
          · show ((datafillOf env a w).2.1.view).oid = w.view.oid
            rw [hview]
          · intro hcontra
            simp at hcontra
          · intro _
            exact ⟨hc, hp⟩
        · have hf2 : (refresh_matview_datafill (CreateTransientRelDestReceiver w.nextOid)
              a env (fillWorld w)).2.2.2 = none := hf
          rw [hf2] at hsome
          cases hsome
  rcases master with ⟨hv, hne, htr⟩ | ⟨hn, h2, h3, h4, h5⟩
  · refine ⟨fun e0 _ => ⟨by rw [hv], by rw [hv], by rw [hv], htr⟩, fun hnone => absurd hnone hne⟩
  · refine ⟨fun e0 herr => ?_, fun _ => ⟨h2, h3, h4, h5⟩⟩
    rw [hn] at herr
    cases herr

/-- Witness for C1 at a concrete successful data-filling refresh. -/
theorem claim1_witness :
    (ExecRefreshMatView { skipData := false } env0 w0).error = none ∧
    ((ExecRefreshMatView { skipData := false } env0 w0).world.view.oid = w0.view.oid ∧
     Event.finishHeapSwap w0.view.oid ∈
       (ExecRefreshMatView { skipData := false } env0 w0).trace ∧
     (({ skipData := false } : RefreshMatViewStmt).skipData = true →
        (ExecRefreshMatView { skipData := false } env0 w0).world.view.contents = []) ∧
     (({ skipData := false } : RefreshMatViewStmt).skipData = false →
        (ExecRefreshMatView { skipData := false } env0 w0).world.view.contents =
          env0.execRows ∧
        (ExecRefreshMatView { skipData := false } env0 w0).world.view.ispopulated =
          true)) :=
  ⟨by decide, (claim1_all_or_nothing { skipData := false } env0 w0).2 (by decide)⟩

end Matview
